import Mathlib

/-!
Verification of the laser-cutting quote engine of this repository
(main module: laser_agent.py, HTTP adapter: api.py).

Shallow embedding conventions:
* Python floats are modelled as rationals (ℚ); `round(x, n)` is modelled as
  round-half-up to `n` decimals (`roundTo`).  No input considered here hits
  an exact half-cent tie, where the CPython float `round` (banker rounding on
  binary floats) could differ from this idealisation.
* Python dict fields that may be absent are modelled as `Option`; fallible
  operations (Python code that can raise) return `Except`/explicit error
  constructors instead of being silently total.
* Strings are compared/transformed via character-list operations so that
  concrete evaluation is possible inside proofs.  `Char.toLower`/`toUpper`
  are ASCII, matching the ASCII layer names and material keys of the repository.
-/

namespace LaserCalc

/-! ## Rounding model: Python round(x, n) as round-half-up to n decimals -/

/-- Model of Python `round(x, n)` over ℚ: round half up to `n` decimal places. -/
def roundTo (n : ℕ) (x : ℚ) : ℚ := (round (x * 10 ^ n) : ℚ) / 10 ^ n

theorem roundTo_eval (n : ℕ) (x : ℚ) : roundTo n x = (⌊x * 10 ^ n + 1 / 2⌋ : ℚ) / 10 ^ n := by
  rw [roundTo, round_eq]

theorem roundTo_add_int_div (n : ℕ) (x : ℚ) (k : ℤ) :
    roundTo n (x + k / 10 ^ n) = roundTo n x + k / 10 ^ n := by
  have hpow : (10 : ℚ) ^ n ≠ 0 := by positivity
  have h : (x + (k : ℚ) / 10 ^ n) * 10 ^ n = x * 10 ^ n + k := by
    field_simp
  rw [roundTo, roundTo, h, round_add_int]
  push_cast
  field_simp

theorem roundTo_exists_int (n : ℕ) (x : ℚ) : ∃ k : ℤ, roundTo n x = k / 10 ^ n :=
  ⟨round (x * 10 ^ n), rfl⟩

theorem roundTo_zero (n : ℕ) : roundTo n 0 = 0 := by
  rw [roundTo]
  norm_num

theorem abs_roundTo_sub (n : ℕ) (x : ℚ) : |roundTo n x - x| ≤ 1 / (2 * 10 ^ n) := by
  have hpow : (0 : ℚ) < 10 ^ n := by positivity
  have key : roundTo n x - x = ((round (x * 10 ^ n) : ℚ) - x * 10 ^ n) / 10 ^ n := by
    rw [roundTo]; field_simp; ring
  have h := abs_sub_round (x * 10 ^ n)
  rw [abs_sub_comm] at h
  rw [key, abs_div, abs_of_pos hpow, div_le_div_iff hpow (by positivity)]
  have h2 := mul_le_mul_of_nonneg_right h (le_of_lt (by positivity : (0 : ℚ) < 2 * 10 ^ n))
  linarith

theorem abs_roundTo_add_sub (n : ℕ) (a b : ℚ) :
    |roundTo n (a + b) - (roundTo n a + roundTo n b)| ≤ 1 / 10 ^ n := by
  have hpow : (0 : ℚ) < 10 ^ n := by positivity
  have h1 : |(a + b) * 10 ^ n - (round ((a + b) * 10 ^ n) : ℚ)| ≤ 1 / 2 := abs_sub_round _
  have h2 : |a * 10 ^ n - (round (a * 10 ^ n) : ℚ)| ≤ 1 / 2 := abs_sub_round _
  have h3 : |b * 10 ^ n - (round (b * 10 ^ n) : ℚ)| ≤ 1 / 2 := abs_sub_round _
  have hcast : ((round ((a + b) * 10 ^ n) - round (a * 10 ^ n) - round (b * 10 ^ n) : ℤ) : ℚ) =
      (round ((a + b) * 10 ^ n) : ℚ) - round (a * 10 ^ n) - round (b * 10 ^ n) := by
    push_cast; ring
  have habs : |((round ((a + b) * 10 ^ n) - round (a * 10 ^ n) - round (b * 10 ^ n) : ℤ) : ℚ)|
      ≤ 3 / 2 := by
    rw [hcast]
    have hrepr : (round ((a + b) * 10 ^ n) : ℚ) - round (a * 10 ^ n) - round (b * 10 ^ n) =
        -((a + b) * 10 ^ n - round ((a + b) * 10 ^ n)) + (a * 10 ^ n - round (a * 10 ^ n))
          + (b * 10 ^ n - round (b * 10 ^ n)) := by ring
    rw [hrepr]
    have htri := abs_add_three
      (-((a + b) * 10 ^ n - (round ((a + b) * 10 ^ n) : ℚ)))
      (a * 10 ^ n - (round (a * 10 ^ n) : ℚ))
      (b * 10 ^ n - (round (b * 10 ^ n) : ℚ))
    rw [abs_neg] at htri
    linarith
  have hdle : |(round ((a + b) * 10 ^ n) - round (a * 10 ^ n) - round (b * 10 ^ n) : ℤ)| ≤ 1 := by
    by_contra hcon
    push_neg at hcon
    have h2le : (2 : ℤ) ≤ |(round ((a + b) * 10 ^ n) - round (a * 10 ^ n)
        - round (b * 10 ^ n) : ℤ)| := hcon
    have : (2 : ℚ) ≤ |((round ((a + b) * 10 ^ n) - round (a * 10 ^ n)
        - round (b * 10 ^ n) : ℤ) : ℚ)| := by
      rw [← Int.cast_abs]
      exact_mod_cast h2le
    linarith
  have hgoal : roundTo n (a + b) - (roundTo n a + roundTo n b) =
      ((round ((a + b) * 10 ^ n) - round (a * 10 ^ n) - round (b * 10 ^ n) : ℤ) : ℚ) / 10 ^ n := by
    rw [roundTo, roundTo, roundTo, hcast]
    field_simp
    ring
  rw [hgoal, abs_div, abs_of_pos hpow]
  have hd1 : |((round ((a + b) * 10 ^ n) - round (a * 10 ^ n)
      - round (b * 10 ^ n) : ℤ) : ℚ)| ≤ 1 := by
    rw [← Int.cast_abs]
    exact_mod_cast hdle
  gcongr

theorem abs_roundTo_mul_sub (n : ℕ) (m s : ℚ) (hm0 : 0 ≤ m) (hm1 : m ≤ 1) :
    |roundTo n (m * s) - m * roundTo n s| ≤ 1 / 10 ^ n := by
  have hpow : (0 : ℚ) < 10 ^ n := by positivity
  have h1 : |roundTo n (m * s) - m * s| ≤ 1 / (2 * 10 ^ n) := abs_roundTo_sub n (m * s)
  have h2 : |roundTo n s - s| ≤ 1 / (2 * 10 ^ n) := abs_roundTo_sub n s
  have h3 : |m * s - m * roundTo n s| = m * |s - roundTo n s| := by
    rw [← mul_sub, abs_mul, abs_of_nonneg hm0]
  have hsplit : roundTo n (m * s) - m * roundTo n s =
      (roundTo n (m * s) - m * s) + (m * s - m * roundTo n s) := by ring
  have htri := abs_add (roundTo n (m * s) - m * s) (m * s - m * roundTo n s)
  have hbound : m * |s - roundTo n s| ≤ 1 * (1 / (2 * 10 ^ n)) := by
    apply mul_le_mul hm1 _ (abs_nonneg _) (by norm_num)
    rw [abs_sub_comm]
    exact h2
  have hfin : (1 : ℚ) / (2 * 10 ^ n) + 1 * (1 / (2 * 10 ^ n)) = 1 / 10 ^ n := by
    field_simp
    ring
  rw [hsplit]
  calc |(roundTo n (m * s) - m * s) + (m * s - m * roundTo n s)|
      ≤ |roundTo n (m * s) - m * s| + |m * s - m * roundTo n s| := htri
    _ ≤ 1 / (2 * 10 ^ n) + 1 * (1 / (2 * 10 ^ n)) := by
        rw [h3]
        exact add_le_add h1 hbound
    _ = 1 / 10 ^ n := hfin

/-! ## String helpers (character-list based, so they evaluate in proofs) -/

/-- ASCII lower-casing of a string, modelling Python str.lower on the ASCII
strings this repository compares. -/
def lowerStr (s : String) : String := String.mk (s.data.map Char.toLower)

/-- Whitespace strip, modelling Python str.strip. -/
def stripStr (s : String) : String :=
  String.mk (((s.data.dropWhile Char.isWhitespace).reverse.dropWhile Char.isWhitespace).reverse)

/-- Does the character list start with the given pattern? -/
def startsWithChars : List Char → List Char → Bool
  | [], _ => true
  | _ :: _, [] => false
  | n :: ns, h :: hs => n == h && startsWithChars ns hs

/-- Does the character list contain the given pattern as a contiguous run? -/
def hasSubChars (needle : List Char) : List Char → Bool
  | [] => needle.isEmpty
  | h :: hs => startsWithChars needle (h :: hs) || hasSubChars needle hs

/-- Python `pat in s` substring containment. -/
def strContains (s pat : String) : Bool := hasSubChars pat.data s.data

/-- Python str.title for ASCII text: first letter of each alphabetic run is
upper-cased, the following letters lower-cased. -/
def titleChars : Bool → List Char → List Char
  | _, [] => []
  | prevAlpha, c :: cs =>
      if c.isAlpha then
        (if prevAlpha then c.toLower else c.toUpper) :: titleChars true cs
      else
        c :: titleChars false cs

def titleStr (s : String) : String := String.mk (titleChars false s.data)

/-! ## Model of Python float(str) on its decimal core -/

def digitsToNat (cs : List Char) : ℕ :=
  cs.foldl (fun a c => 10 * a + (c.toNat - 48)) 0

/-- Split an optional leading sign; returns (isNegative, rest). -/
def splitSign : List Char → Bool × List Char
  | '+' :: cs => (false, cs)
  | '-' :: cs => (true, cs)
  | cs => (false, cs)

/-- Parse the unsigned part of a float literal: digits, optional fractional
part, optional exponent.  Returns none when the shape is not a float literal. -/
def parseUnsignedFloat (cs : List Char) : Option ℚ :=
  let ip := cs.takeWhile Char.isDigit
  let r1 := cs.dropWhile Char.isDigit
  let fp := match r1 with
    | '.' :: rest => rest.takeWhile Char.isDigit
    | _ => []
  let r2 := match r1 with
    | '.' :: rest => rest.dropWhile Char.isDigit
    | _ => r1
  if ip.isEmpty && fp.isEmpty then none
  else
    let mant : ℚ := (digitsToNat ip : ℚ) + (digitsToNat fp : ℚ) / 10 ^ fp.length
    match r2 with
    | [] => some mant
    | e :: rest =>
      if e == 'e' || e == 'E' then
        let sg := splitSign rest
        let ed := sg.2.takeWhile Char.isDigit
        let r3 := sg.2.dropWhile Char.isDigit
        if ed.isEmpty || !r3.isEmpty then none
        else some (if sg.1 then mant / 10 ^ digitsToNat ed else mant * 10 ^ digitsToNat ed)
      else none

/-- Model of Python `float(s)` restricted to its decimal core (optional sign,
digits, decimal point, exponent; surrounding whitespace ignored).  Forms not
used by this repository (inf, nan, underscore separators, hex) are treated as
unparseable. -/
def pyFloat? (s : String) : Option ℚ :=
  let sg := splitSign (stripStr s).data
  match parseUnsignedFloat sg.2 with
  | none => none
  | some q => some (if sg.1 then -q else q)

/-! ## Catalog data model (laser_agent.py DEFAULT_CONFIG / laser_config.json) -/

/-- A JSON scalar that is either a number or a raw string; used for the
grosor field of a catalog entry, which find_material converts with
`float(...)` inside try/except (non numeric entries are skipped). -/
inductive NumOrStr where
  | num (q : ℚ)
  | str (s : String)
deriving DecidableEq, Repr

/-- Per-operation override block for the cut entry of process_params.
Python merges overrides with dict.update, so each known key is optional. -/
structure CutOverride where
  speed_pct : Option ℚ := none
  power_pct : Option ℚ := none
  air_bar : Option ℚ := none
  overhead_factor : Option ℚ := none
deriving DecidableEq, Repr

/-- Per-operation override block for the engrave entry of process_params. -/
structure EngraveOverride where
  speed_pct : Option ℚ := none
  power_pct : Option ℚ := none
  air_bar : Option ℚ := none
  hatch_spacing_mm : Option ℚ := none
  fill_overhead_factor : Option ℚ := none
deriving DecidableEq, Repr

/-- Optional process_params block of a catalog entry. -/
structure ProcessOverrides where
  cut : Option CutOverride := none
  engrave : Option EngraveOverride := none
deriving DecidableEq, Repr

/-- One catalog entry (element of config["materiales"]).  velocidad_corte is
`none` when the field is missing or not numeric (the code collapses both via
its isinstance check); potencia_laser and fuerza_aire are `none` when the
key is missing (.get default).  precio_plancha and tamano_plancha are the
numeric fields read unguarded by the aggregator. -/
structure Material where
  material : String
  grosor : NumOrStr
  color : String
  precio_plancha : ℚ := 0
  tamano_plancha : ℚ := 1
  velocidad_corte : Option ℚ := none
  potencia_laser : Option ℚ := none
  fuerza_aire : Option ℚ := none
  process_params : Option ProcessOverrides := none
deriving DecidableEq, Repr

/-- Engine configuration (the loaded laser_config.json snapshot). -/
structure Config where
  tarifa_por_minuto : ℚ
  margen_beneficio : ℚ
  materiales : List Material
deriving DecidableEq, Repr

/-- Numeric thickness of a catalog entry: `float(mat["grosor"])` inside the
try/except of find_material; `none` models the except/continue branch. -/
def grosorQ? (m : Material) : Option ℚ :=
  match m.grosor with
  | .num q => some q
  | .str s => pyFloat? s

/-- The per-entry matching test of find_material: case-insensitive name and
color equality plus thickness within 0.05 mm; entries whose grosor does not
convert to a number never match (continue). -/
def material_matches (mname : String) (grosor : ℚ) (color : String) (m : Material) : Bool :=
  (lowerStr m.material == lowerStr mname) && (lowerStr m.color == lowerStr color) &&
    (match grosorQ? m with
     | some g => decide (|g - grosor| ≤ 5 / 100)
     | none => false)

/-- find_material: first catalog entry matching name, thickness (within
tolerance) and color; None when no entry matches. -/
def find_material (cfg : Config) (mname : String) (grosor : ℚ) (color : String) :
    Option Material :=
  cfg.materiales.find? (material_matches mname grosor color)

/-- Display form of a possibly non numeric grosor field, modelling Python
str() on it (integers print without decimal point; non integer rationals are
shown as fractions, a display-only divergence from the Python decimal output
that no claim depends on). -/
def ratStr (q : ℚ) : String :=
  if q.den = 1 then toString q.num else toString q.num ++ "/" ++ toString q.den

def numOrStrDisplay : NumOrStr → String
  | .num q => ratStr q
  | .str s => s

/-- One line of get_available_materials: f-string "{material} {grosor}mm {color}". -/
def format_material_entry (m : Material) : String :=
  m.material ++ " " ++ numOrStrDisplay m.grosor ++ "mm " ++ m.color

/-- get_available_materials: the formatted list over the whole catalog. -/
def get_available_materials (cfg : Config) : List String :=
  cfg.materiales.map format_material_entry

/-- Error message of the material-not-found branches. -/
def material_not_found_msg (mname : String) (grosor : ℚ) (color : String) : String :=
  "Material no encontrado: " ++ mname ++ " " ++ ratStr grosor ++ "mm " ++ color

/-! ## Process parameter resolver (_resolve_process_params) -/

/-- Resolved cut parameters. -/
structure CutParams where
  speed_pct : ℚ
  power_pct : ℚ
  air_bar : ℚ
  overhead_factor : ℚ
deriving DecidableEq, Repr

/-- Resolved engrave parameters. -/
structure EngraveParams where
  speed_pct : ℚ
  power_pct : ℚ
  air_bar : ℚ
  hatch_spacing_mm : ℚ
  fill_overhead_factor : ℚ
deriving DecidableEq, Repr

/-- Resolved per-operation process parameters. -/
structure ProcessConfig where
  cut : CutParams
  engrave : EngraveParams
deriving DecidableEq, Repr

/-- Default cut parameters before overrides: the own values of the material, with
speed falling back to 25 when velocidad_corte is not numeric, power to 90 and
air to 0.8 when the keys are missing, and the fixed 1.05 overhead. -/
def default_cut_params (m : Material) : CutParams :=
  { speed_pct := m.velocidad_corte.getD 25
    power_pct := m.potencia_laser.getD 90
    air_bar := m.fuerza_aire.getD (8 / 10)
    overhead_factor := 105 / 100 }

/-- Default engrave parameters before overrides: fixed values, independent of
the cut speed of the material. -/
def default_engrave_params : EngraveParams :=
  { speed_pct := 60
    power_pct := 30
    air_bar := 4 / 10
    hatch_spacing_mm := 25 / 100
    fill_overhead_factor := 12 / 10 }

/-- dict.update of the cut override block over the defaults: each present
key overwrites, each absent key keeps the default. -/
def apply_cut_override (p : CutParams) : Option CutOverride → CutParams
  | none => p
  | some o =>
      { speed_pct := o.speed_pct.getD p.speed_pct
        power_pct := o.power_pct.getD p.power_pct
        air_bar := o.air_bar.getD p.air_bar
        overhead_factor := o.overhead_factor.getD p.overhead_factor }

/-- dict.update of the engrave override block over the defaults. -/
def apply_engrave_override (p : EngraveParams) : Option EngraveOverride → EngraveParams
  | none => p
  | some o =>
      { speed_pct := o.speed_pct.getD p.speed_pct
        power_pct := o.power_pct.getD p.power_pct
        air_bar := o.air_bar.getD p.air_bar
        hatch_spacing_mm := o.hatch_spacing_mm.getD p.hatch_spacing_mm
        fill_overhead_factor := o.fill_overhead_factor.getD p.fill_overhead_factor }

/-- Model of _resolve_process_params: build the defaults, then apply the optional
process_params override block of the material. -/
def resolve_process_params (m : Material) : ProcessConfig :=
  let base : ProcessConfig := { cut := default_cut_params m, engrave := default_engrave_params }
  match m.process_params with
  | none => base
  | some pp =>
      { cut := apply_cut_override base.cut pp.cut
        engrave := apply_engrave_override base.engrave pp.engrave }

/-! ## Layer time model (calculate_layer_time_minutes) -/

/-- One canonical layer.  `name` is `none` when the name key is absent (the
breakdown then falls back to the lowered type); `type` is the raw kind string
(the code coalesces a missing type to the empty string); hatch_spacing_mm is
`none` when the key is absent. -/
structure Layer where
  name : Option String := none
  type : String := ""
  length_m : ℚ := 0
  area_m2 : ℚ := 0
  hatch_spacing_mm : Option ℚ := none
deriving DecidableEq, Repr

/-- Per-layer breakdown entry returned by calculate_layer_time_minutes. -/
structure LayerBreakdown where
  name : String
  type : String
  length_m : ℚ
  area_m2 : ℚ
  time_min : ℚ
deriving DecidableEq, Repr

/-- Model of _speed_m_per_min: speed percentage to linear feed in m/min
(100 percent = 300 mm/s). -/
def speed_m_per_min (speed_pct : ℚ) : ℚ :=
  speed_pct / 100 * 300 * 60 / 1000

/-- The Python `a or b or c` chain used for the fill hatch spacing: the layer
value when present and non zero, else the resolved engrave value when non
zero, else 0.25. -/
def fill_hatch_spacing (layer : Layer) (process : ProcessConfig) : ℚ :=
  let fallback :=
    if process.engrave.hatch_spacing_mm ≠ 0 then process.engrave.hatch_spacing_mm else 25 / 100
  match layer.hatch_spacing_mm with
  | some q => if q ≠ 0 then q else fallback
  | none => fallback

/-- Core of calculate_layer_time_minutes over already resolved process
parameters (the method resolves them itself; see the wrapper below). -/
def calculate_layer_time_minutes_p (layer : Layer) (process : ProcessConfig) : LayerBreakdown :=
  let layer_type := lowerStr layer.type
  let base : LayerBreakdown :=
    { name := layer.name.getD layer_type
      type := layer_type
      length_m := roundTo 4 layer.length_m
      area_m2 := roundTo 4 layer.area_m2
      time_min := 0 }
  if layer_type = "cut_outside" ∨ layer_type = "cut_inside" then
    let v := speed_m_per_min process.cut.speed_pct
    let t := if v > 0 then layer.length_m / v * process.cut.overhead_factor else 0
    { base with time_min := roundTo 3 t }
  else if layer_type = "engrave_outline" then
    let v := speed_m_per_min process.engrave.speed_pct
    let t := if v > 0 then layer.length_m / v * (108 / 100) else 0
    { base with time_min := roundTo 3 t }
  else if layer_type = "engrave_fill" then
    let spacing_m := fill_hatch_spacing layer process / 1000
    let total_length := if spacing_m > 0 then layer.area_m2 / spacing_m else 0
    let v := speed_m_per_min process.engrave.speed_pct
    let t := if v > 0 then total_length / v * process.engrave.fill_overhead_factor else 0
    { base with length_m := roundTo 4 total_length, time_min := roundTo 3 t }
  else base

/-- calculate_layer_time_minutes: resolve the process parameters of the
material, then apply the per-kind formulas. -/
def calculate_layer_time_minutes (layer : Layer) (material_info : Material) : LayerBreakdown :=
  calculate_layer_time_minutes_p layer (resolve_process_params material_info)

/-! ## Budget aggregation (calculate_budget_from_job and the legacy path) -/

/-- A Python exception escaping the engine (as opposed to a returned error
dict). -/
inductive PyRaise where
  | zeroDivision
  | keyOrTypeErr
deriving DecidableEq, Repr

/-- The returned error dict: message plus materiales_disponibles. -/
structure BudgetErr where
  error : String
  materiales_disponibles : List String
deriving DecidableEq, Repr

/-- Successful result dict of calculate_budget_from_job.  The
parametros_corte display strings of the code are a formatting of the resolved
ProcessConfig; the resolved values themselves are carried here. -/
structure BudgetOk where
  material : Material
  tiempo_corte_minutos : ℚ
  coste_corte : ℚ
  coste_material : ℚ
  subtotal : ℚ
  margen_beneficio : ℚ
  total : ℚ
  layers : List LayerBreakdown
  parametros_corte : ProcessConfig
deriving DecidableEq, Repr

/-- Result of the layer-based aggregator: a quote, a returned error dict, or
a raised exception. -/
inductive BudgetResult where
  | ok (r : BudgetOk)
  | err (e : BudgetErr)
  | raised (e : PyRaise)
deriving DecidableEq, Repr

/-- calculate_cutting_time (legacy single-length path): unguarded division by
the feed rate; a zero rate raises ZeroDivisionError. -/
def calculate_cutting_time (longitud_vector : ℚ) (velocidad_corte_porcentaje : ℚ) :
    Except PyRaise ℚ :=
  let velocidad_mm_s := velocidad_corte_porcentaje / 100 * 300
  let velocidad_mm_min := velocidad_mm_s * 60
  let velocidad_m_min := velocidad_mm_min / 1000
  if velocidad_m_min = 0 then Except.error PyRaise.zeroDivision
  else Except.ok (roundTo 2 (longitud_vector / velocidad_m_min))

/-- calculate_material_cost: fractional sheet scaling, rounded to 2 decimals
at computation; division by a zero sheet area raises. -/
def calculate_material_cost (cantidad_m2 precio_plancha tamano_plancha : ℚ) :
    Except PyRaise ℚ :=
  if tamano_plancha = 0 then Except.error PyRaise.zeroDivision
  else Except.ok (roundTo 2 (cantidad_m2 / tamano_plancha * precio_plancha))

/-- Canonical calculation input (job_data of calculate_budget_from_job). -/
structure Job where
  material : String
  grosor : ℚ
  color : String
  material_area_m2 : ℚ := 0
  layers : List Layer := []
deriving DecidableEq, Repr

/-- The per-layer breakdown list of the aggregation loop, in input order. -/
def job_layers_breakdown (job : Job) (mi : Material) : List LayerBreakdown :=
  job.layers.map (fun l => calculate_layer_time_minutes l mi)

/-- The accumulated total_time of the aggregation loop. -/
def job_total_time (job : Job) (mi : Material) : ℚ :=
  ((job_layers_breakdown job mi).map (fun b => b.time_min)).sum

/-- calculate_budget_from_job: catalog lookup, per-layer times in input
order, cost accumulation, margin, and 2-decimal rounding of the reported
monetary fields. -/
def calculate_budget_from_job (cfg : Config) (job : Job) : BudgetResult :=
  match find_material cfg job.material job.grosor job.color with
  | none =>
      BudgetResult.err ⟨material_not_found_msg job.material job.grosor job.color,
        get_available_materials cfg⟩
  | some mi =>
      let layers_with_time := job_layers_breakdown job mi
      let total_time := job_total_time job mi
      let coste_corte := total_time * cfg.tarifa_por_minuto
      match calculate_material_cost job.material_area_m2 mi.precio_plancha mi.tamano_plancha with
      | Except.error e => BudgetResult.raised e
      | Except.ok coste_material =>
          let subtotal := coste_corte + coste_material
          let margen := subtotal * (cfg.margen_beneficio / 100)
          let total := subtotal + margen
          BudgetResult.ok
            { material := mi
              tiempo_corte_minutos := roundTo 2 total_time
              coste_corte := roundTo 2 coste_corte
              coste_material := coste_material
              subtotal := roundTo 2 subtotal
              margen_beneficio := roundTo 2 margen
              total := roundTo 2 total
              layers := layers_with_time
              parametros_corte := resolve_process_params mi }

/-- Successful result dict of the legacy calculate_budget (no layer
breakdown; parametros_corte is a formatting of raw material fields, not
modelled). -/
structure LegacyBudgetOk where
  material : Material
  tiempo_corte_minutos : ℚ
  coste_corte : ℚ
  coste_material : ℚ
  subtotal : ℚ
  margen_beneficio : ℚ
  total : ℚ
deriving DecidableEq, Repr

/-- Result of the legacy single-length path. -/
inductive LegacyBudgetResult where
  | ok (r : LegacyBudgetOk)
  | err (e : BudgetErr)
  | raised (e : PyRaise)
deriving DecidableEq, Repr

/-- calculate_budget (legacy single-length path): reads
material_info["velocidad_corte"] unguarded (a missing or non numeric value
raises KeyError/TypeError, modelled by the collapsed `none`), then divides by
the derived feed rate without a zero guard. -/
def calculate_budget (cfg : Config) (longitud_vector : ℚ) (mname : String) (grosor : ℚ)
    (color : String) (cantidad_material : ℚ) : LegacyBudgetResult :=
  match find_material cfg mname grosor color with
  | none =>
      LegacyBudgetResult.err ⟨material_not_found_msg mname grosor color,
        get_available_materials cfg⟩
  | some mi =>
      match mi.velocidad_corte with
      | none => LegacyBudgetResult.raised PyRaise.keyOrTypeErr
      | some v =>
          match calculate_cutting_time longitud_vector v with
          | Except.error e => LegacyBudgetResult.raised e
          | Except.ok tiempo_corte =>
              let coste_corte := tiempo_corte * cfg.tarifa_por_minuto
              match calculate_material_cost cantidad_material mi.precio_plancha
                  mi.tamano_plancha with
              | Except.error e => LegacyBudgetResult.raised e
              | Except.ok coste_material =>
                  let subtotal := coste_corte + coste_material
                  let margen := subtotal * (cfg.margen_beneficio / 100)
                  let total := subtotal + margen
                  LegacyBudgetResult.ok
                    { material := mi
                      tiempo_corte_minutos := tiempo_corte
                      coste_corte := roundTo 2 coste_corte
                      coste_material := coste_material
                      subtotal := roundTo 2 subtotal
                      margen_beneficio := roundTo 2 margen
                      total := roundTo 2 total }

/-- Modelled from the spec: a variant of calculate_budget_from_job in which
"all monetary values [are] rounded to 2 decimals at the point of output, not
during intermediate accumulation" — i.e. the UNROUNDED material cost enters
the subtotal and every monetary field is rounded only when reported.  The
source rounds the material cost inside calculate_material_cost before
accumulation; this definition exists to compare the code against the
rounding discipline of the spec. -/
def calculate_budget_from_job_spec_rounding (cfg : Config) (job : Job) : BudgetResult :=
  match find_material cfg job.material job.grosor job.color with
  | none =>
      BudgetResult.err ⟨material_not_found_msg job.material job.grosor job.color,
        get_available_materials cfg⟩
  | some mi =>
      let layers_with_time := job_layers_breakdown job mi
      let total_time := job_total_time job mi
      let coste_corte := total_time * cfg.tarifa_por_minuto
      if mi.tamano_plancha = 0 then BudgetResult.raised PyRaise.zeroDivision
      else
        let coste_material_raw := job.material_area_m2 / mi.tamano_plancha * mi.precio_plancha
        let subtotal := coste_corte + coste_material_raw
        let margen := subtotal * (cfg.margen_beneficio / 100)
        let total := subtotal + margen
        BudgetResult.ok
          { material := mi
            tiempo_corte_minutos := roundTo 2 total_time
            coste_corte := roundTo 2 coste_corte
            coste_material := roundTo 2 coste_material_raw
            subtotal := roundTo 2 subtotal
            margen_beneficio := roundTo 2 margen
            total := roundTo 2 total
            layers := layers_with_time
            parametros_corte := resolve_process_params mi }

/-! ## Untyped JSON values and the frontend normalizer
(api.py adapt_frontend_format and laser_agent.py calculate_budget_from_frontend) -/

/-- Untyped JSON-ish Python value.  Objects are association lists with
distinct keys (the payloads this repository handles never repeat keys). -/
inductive JVal where
  | null
  | bool (b : Bool)
  | num (q : ℚ)
  | str (s : String)
  | arr (xs : List JVal)
  | obj (kvs : List (String × JVal))

def jLookup (kvs : List (String × JVal)) (k : String) : Option JVal :=
  match kvs.find? (fun kv => kv.1 == k) with
  | some kv => some kv.2
  | none => none

/-- Python dict.get(k): some value when present (possibly null), none when
the receiver is not a dict or lacks the key. -/
def jGet (v : JVal) (k : String) : Option JVal :=
  match v with
  | .obj kvs => jLookup kvs k
  | _ => none

/-- Python dict.get(k, default). -/
def jGetD (v : JVal) (k : String) (d : JVal) : JVal := (jGet v k).getD d

/-- Python `k in d` key test. -/
def hasKey (v : JVal) (k : String) : Bool :=
  match v with
  | .obj kvs => (kvs.find? (fun kv => kv.1 == k)).isSome
  | _ => false

/-- Python truthiness. -/
def truthy : JVal → Bool
  | .null => false
  | .bool b => b
  | .num q => !(q == 0)
  | .str s => !(s == "")
  | .arr xs => !xs.isEmpty
  | .obj kvs => !kvs.isEmpty

def isObj : JVal → Bool
  | .obj _ => true
  | _ => false

/-- Python str() on the scalar values this pipeline stringifies.  Container
rendering is simplified to a placeholder; no claim inspects it. -/
def pyStr : JVal → String
  | .null => "None"
  | .bool true => "True"
  | .bool false => "False"
  | .num q => ratStr q
  | .str s => s
  | .arr _ => "[...]"
  | .obj _ => "\x7b...\x7d"

/-- Python `v == "lit"` for a JSON value against a string literal. -/
def jEqStr (v : JVal) (s : String) : Bool :=
  match v with
  | .str t => t == s
  | _ => false

/-- Python float(value) on a JSON value: numbers and bools convert, strings
go through the literal parser, anything else raises (none). -/
def jFloatOf? : JVal → Option ℚ
  | .num q => some q
  | .bool b => some (if b then 1 else 0)
  | .str s => pyFloat? s
  | _ => none

/-- Truncation toward zero, as Python int() on a float. -/
def intTrunc (q : ℚ) : ℤ := if 0 ≤ q then ⌊q⌋ else -⌊-q⌋

/-- Python int(s) on a string: optional sign plus digits only. -/
def pyIntStr? (s : String) : Option ℤ :=
  let sg := splitSign (stripStr s).data
  if !sg.2.isEmpty && sg.2.all Char.isDigit then
    some (if sg.1 then -(digitsToNat sg.2 : ℤ) else (digitsToNat sg.2 : ℤ))
  else none

/-- Python int(value) on a JSON value. -/
def jIntOf? : JVal → Option ℤ
  | .num q => some (intTrunc q)
  | .bool b => some (if b then 1 else 0)
  | .str s => pyIntStr? s
  | _ => none

/-- Model of _safe_float: numbers and bools convert; strings are stripped, sentinel
strings fall back to the default, other strings go through float() with the
default on failure; every other value falls back to the default. -/
def safe_float (v : JVal) (default : ℚ) : ℚ :=
  match v with
  | .num q => q
  | .bool b => if b then 1 else 0
  | .str s =>
      let t := stripStr s
      if ["no especificado", "n/a", "", "none", "null"].contains (lowerStr t) then default
      else (pyFloat? t).getD default
  | _ => default

/-- Character class `[\d.,]` of the area regex. -/
def isAreaClassChar (c : Char) : Bool := c.isDigit || c == '.' || c == ','

/-- Match of the unit alternation `mm.?²?|m.?²?` (case-insensitive) at the
head of the list: some true for the mm branch, some false for the m branch,
none when no unit starts here.  The optional trailing characters always
match, so only the leading m/mm decides. -/
def unitIsMM? : List Char → Option Bool
  | [] => none
  | c1 :: rest =>
      if c1.toLower == 'm' then
        match rest with
        | c2 :: _ => some (c2.toLower == 'm')
        | [] => some false
      else none

/-- Leftmost search of `([\d.,]+)\s*(mm.?²?|m.?²?)`: at each start position
holding a class character, take the maximal class run, skip whitespace and
try the unit; a failed unit match moves the start one character right
(backtracking the greedy group cannot help, because class characters are
neither whitespace nor m). -/
def findAreaMatch : List Char → Option (List Char × Bool)
  | [] => none
  | c :: rest =>
      if isAreaClassChar c then
        let run := (c :: rest).takeWhile isAreaClassChar
        let after := ((c :: rest).dropWhile isAreaClassChar).dropWhile Char.isWhitespace
        match unitIsMM? after with
        | some mm => some (run, mm)
        | none => findAreaMatch rest
      else findAreaMatch rest

/-- Model of _extract_area_from_string: numeric values pass through, strings are
searched for a number-plus-unit pattern (comma decimal separators accepted),
mm² converts to m², anything else yields 0. -/
def extract_area_from_string (v : JVal) : ℚ :=
  match v with
  | .num q => q
  | .bool b => if b then 1 else 0
  | .str s =>
      match findAreaMatch s.data with
      | some (run, isMM) =>
          let valor :=
            safe_float (.str (String.mk (run.map (fun c => if c == ',' then '.' else c)))) 0
          if isMM then valor / 1000000 else valor
      | none => 0
  | _ => 0

/-- Model of _map_layer_name_to_type: substring rules over the lowered stripped name,
defaulting to cut_outside. -/
def map_layer_name_to_type (layer_name : String) : String :=
  let n := stripStr (lowerStr layer_name)
  if strContains n "corte" && strContains n "exterior" then "cut_outside"
  else if strContains n "corte" && strContains n "interior" then "cut_inside"
  else if strContains n "material" then "engrave_outline"
  else if strContains n "marc" || strContains n "marco" then "engrave_outline"
  else if strContains n "grabado" then "engrave_outline"
  else "cut_outside"

/-- Model of _normalize_material_name: fixed synonym table, unmapped values pass
through unchanged. -/
def normalize_material_name (material : String) : String :=
  let ml := stripStr (lowerStr material)
  if ml == "contrachapado" then "Contrachapado"
  else if ml == "mdf" then "MDF"
  else if ml == "metacrilato" then "Metacrilato"
  else if ml == "acrilico" then "Metacrilato"
  else if ml == "dm" then "DM"
  else material

/-- Model of _normalize_color_name: fixed synonym table, unmapped values get Python
str.title capitalisation. -/
def normalize_color_name (color : String) : String :=
  let cl := stripStr (lowerStr color)
  if cl == "light-wood" then "light-wood"
  else if cl == "dark-wood" then "dark-wood"
  else if cl == "madera-clara" then "light-wood"
  else if cl == "madera-oscura" then "dark-wood"
  else if cl == "natural" then "light-wood"
  else if cl == "transparente" then "Transparente"
  else if cl == "negro" then "Negro"
  else if cl == "blanco" then "Blanco"
  else titleStr color

/-- Python str.replace("mm", "") as used on the Grosor string: remove the
non-overlapping occurrences left to right. -/
def removeMM : List Char → List Char
  | 'm' :: 'm' :: rest => removeMM rest
  | c :: rest => c :: removeMM rest
  | [] => []

/-- The Grosor parse of calculate_budget_from_frontend:
str(value).replace("mm", "").strip() fed to _safe_float with default 0. -/
def parse_grosor (v : JVal) : ℚ :=
  safe_float (.str (stripStr (String.mk (removeMM (pyStr v).data)))) 0

/-- The fixed fallback material-provider block of adapt_frontend_format. -/
def default_material_block : JVal :=
  .obj [("proveedor", .str "Arkcutt"),
        ("Material seleccionado", .str "Contrachapado"),
        ("Grosor", .str "4"),
        ("Color", .str "light-wood")]

/-- Adaptation of the capas list of a new-shape payload (the inner loop of
adapt_frontend_format).  int()/float() on a present truthy but unconvertible
vectores/area_material value raises out of the adapter (ValueError, caught
only by the HTTP handler); the longitud_mm conversion is try/except guarded
to 0 in the source. -/
def adapt_capas : List JVal → Except String (List JVal)
  | [] => Except.ok []
  | capa :: rest =>
      match capa, rest with
      | .obj kvs, rest =>
          let capa := JVal.obj kvs
          let longitud_mm := (jFloatOf? (jGetD capa "longitud_mm" (.num 0))).getD 0
          let vval := jGetD capa "vectores" .null
          let aval := jGetD capa "area_material" .null
          match (if truthy vval then jIntOf? vval else some 0) with
          | none => Except.error "Error procesando datos del formulario"
          | some vec =>
              match (if truthy aval then jFloatOf? aval else some 0) with
              | none => Except.error "Error procesando datos del formulario"
              | some area =>
                  match adapt_capas rest with
                  | Except.error e => Except.error e
                  | Except.ok tail =>
                      Except.ok (JVal.obj
                        [("nombre", .str (pyStr (jGetD capa "nombre" (.str "")))),
                         ("vectores", .num (vec : ℚ)),
                         ("longitud_mm", .num longitud_mm),
                         ("longitud_m", .num (longitud_mm / 1000)),
                         ("area_material", .num area)] :: tail)
      | _, rest => adapt_capas rest

/-- The adapted Cliente block of adapt_frontend_format. -/
def adapt_cliente (data : JVal) : JVal :=
  match jGetD data "cliente" .null with
  | .obj ckvs =>
      .obj [("Nombre y Apellidos", jGetD (.obj ckvs) "nombre_completo" (.str "")),
            ("Mail", jGetD (.obj ckvs) "email" (.str "")),
            ("Número de Teléfono", jGetD (.obj ckvs) "telefono" (.str ""))]
  | _ => .obj []

/-- The basic Pedido fields built by adapt_frontend_format from a dict-shaped
pedido section, including the synthesized material-provider block. -/
def adapt_base_fields (data pedidoVal : JVal) : List (String × JVal) :=
  [("Número de solicitud", jGetD data "numero_solicitud" (.str "")),
   ("Fecha de solicitud", jGetD data "fecha_solicitud" (.str "")),
   ("Material seleccionado", jGetD pedidoVal "material_seleccionado" (.str "")),
   ("Longitud vector total",
     .str (pyStr (jGetD pedidoVal "longitud_vector_total_metros" (.num 0)) ++ " m")),
   ("Area material",
     .str (pyStr (jGetD pedidoVal "area_material" (.num 0)) ++ " mm²")),
   ("Solicitud urgente",
     .bool (jEqStr (jGetD pedidoVal "servicio_urgente" (.str "no")) "sí")),
   ("¿Quién proporciona el material?",
     .obj [("proveedor", .str "Arkcutt"),
           ("Material seleccionado",
             jGetD pedidoVal "material_seleccionado" (.str "Contrachapado")),
           ("Grosor", .str "4"),
           ("Color", .str "light-wood")])]

/-- The optional Datos Recogida field of the adapted Pedido. -/
def adapt_recogida (pedidoVal : JVal) : List (String × JVal) :=
  match jGet pedidoVal "datos_recogida" with
  | some (.obj rkvs) => [("Datos Recogida", .obj rkvs)]
  | _ => []

/-- adapt_frontend_format (api.py): an empty payload raises ValueError; a
payload carrying both legacy keys Cliente and Pedido is returned unchanged;
otherwise the new Next.js shape is rebuilt into the legacy shape, always
synthesizing a material-provider block (from material_seleccionado when
present, else the fixed fallback). -/
def adapt_frontend_format (data : JVal) : Except String JVal :=
  if !truthy data then Except.error "Datos del formulario vacíos"
  else if hasKey data "Cliente" && hasKey data "Pedido" then Except.ok data
  else
    match jGetD data "pedido" .null with
    | .obj pkvs =>
        match jGet (.obj pkvs) "capas" with
        | some (.arr xs) =>
            match adapt_capas xs with
            | Except.error e => Except.error e
            | Except.ok capas =>
                Except.ok (.obj [("Cliente", adapt_cliente data),
                  ("Pedido", .obj (adapt_base_fields data (.obj pkvs)
                    ++ [("Capas", .arr capas)] ++ adapt_recogida (.obj pkvs)))])
        | _ =>
            Except.ok (.obj [("Cliente", adapt_cliente data),
              ("Pedido", .obj (adapt_base_fields data (.obj pkvs)
                ++ adapt_recogida (.obj pkvs)))])
    | _ =>
        Except.ok (.obj [("Cliente", adapt_cliente data),
          ("Pedido", .obj [("¿Quién proporciona el material?", default_material_block)])])

/-- Error message prefix of the broad except handler in
calculate_budget_from_frontend (the Python message appends the exception
text, which is not modelled). -/
def frontend_error_msg : String := "Error procesando JSON del frontend"

/-- The per-capa normalisation loop of calculate_budget_from_frontend: non
dict entries are skipped; a non string nombre raises inside
_map_layer_name_to_type (caught by the broad except); engrave_fill layers
get the job area and a fixed 0.25 hatch. -/
def build_layers (avail : List String) (material_area_m2 : ℚ) :
    List JVal → Except BudgetErr (List Layer)
  | [] => Except.ok []
  | capa :: rest =>
      match capa, rest with
      | .obj kvs, rest =>
          let capa := JVal.obj kvs
          match jGetD capa "nombre" (.str "") with
          | .str nombre =>
              let layer_type := map_layer_name_to_type nombre
              let longitud := safe_float (jGetD capa "longitud_m" (.num 0)) 0
              let layer : Layer :=
                if layer_type == "engrave_fill" then
                  { name := some nombre, type := layer_type, length_m := longitud,
                    area_m2 := material_area_m2, hatch_spacing_mm := some (25 / 100) }
                else
                  { name := some nombre, type := layer_type, length_m := longitud }
              match build_layers avail material_area_m2 rest with
              | Except.error e => Except.error e
              | Except.ok tail => Except.ok (layer :: tail)
          | _ => Except.error ⟨frontend_error_msg, avail⟩
      | _, rest => build_layers avail material_area_m2 rest

/-- The normalisation half of calculate_budget_from_frontend: validate the
payload shape, read the material-provider block, parse grosor/color/area and
the capas into a canonical Job.  Error dictionaries carry the available
materials list; a non dict Pedido or non string material/color value raises
into the broad except handler (generic message). -/
def build_job_from_frontend (cfg : Config) (frontend_data : JVal) : Except BudgetErr Job :=
  let avail := get_available_materials cfg
  if !truthy frontend_data || !isObj frontend_data then
    Except.error ⟨"Datos del frontend vacíos o inválidos", avail⟩
  else
    match jGetD frontend_data "Pedido" .null with
    | .null => Except.error ⟨"Sección Pedido no encontrada en los datos", avail⟩
    | .obj pkvs =>
        let pedido := JVal.obj pkvs
        match jGetD pedido "¿Quién proporciona el material?" .null with
        | .null => Except.error ⟨"Información del material no encontrada", avail⟩
        | .obj mkvs =>
            let material_info_raw := JVal.obj mkvs
            match jGetD material_info_raw "Material seleccionado" (.str "") with
            | .str mat_raw =>
                match jGetD material_info_raw "Color" (.str "") with
                | .str color_raw =>
                    let material_name := normalize_material_name mat_raw
                    let grosor := parse_grosor (jGetD material_info_raw "Grosor" (.str ""))
                    let color := normalize_color_name color_raw
                    let area_string := jGetD pedido "Area material" (.str "0 mm²")
                    let material_area_m2 := extract_area_from_string area_string
                    let capas := match jGet pedido "Capas" with
                      | some (.arr xs) => xs
                      | _ => []
                    match build_layers avail material_area_m2 capas with
                    | Except.error e => Except.error e
                    | Except.ok layers =>
                        Except.ok
                          { material := material_name
                            grosor := grosor
                            color := color
                            material_area_m2 := material_area_m2
                            layers := layers }
                | _ => Except.error ⟨frontend_error_msg, avail⟩
            | _ => Except.error ⟨frontend_error_msg, avail⟩
        | _ => Except.error ⟨"Formato de material inválido", avail⟩
    | _ => Except.error ⟨frontend_error_msg, avail⟩

/-- calculate_budget_from_frontend: normalize, then aggregate; an exception
raised by the aggregation is caught by the broad except handler and turned
into a returned error dict.  The frontend_info echo block attached to
successful results is display metadata and is not modelled. -/
def calculate_budget_from_frontend (cfg : Config) (frontend_data : JVal) : BudgetResult :=
  match build_job_from_frontend cfg frontend_data with
  | Except.error e => BudgetResult.err e
  | Except.ok job =>
      match calculate_budget_from_job cfg job with
      | BudgetResult.raised _ =>
          BudgetResult.err ⟨frontend_error_msg, get_available_materials cfg⟩
      | r => r

/-- The /calculate normalisation pipeline: adapt_frontend_format (api.py)
followed by the normalisation half of calculate_budget_from_frontend.  The
result is the canonical Job consumed by the aggregator, or the error
message. -/
def normalize_pipeline (cfg : Config) (payload : JVal) : Except String Job :=
  match adapt_frontend_format payload with
  | Except.error m => Except.error m
  | Except.ok adapted =>
      match build_job_from_frontend cfg adapted with
      | Except.error e => Except.error e.error
      | Except.ok job => Except.ok job

/-! ## Helper lemmas about the aggregator -/

/-- Unfolding of calculate_budget_from_job in the successful case. -/
theorem calculate_budget_from_job_ok (cfg : Config) (job : Job) (mi : Material)
    (hfind : find_material cfg job.material job.grosor job.color = some mi)
    (htam : mi.tamano_plancha ≠ 0) :
    calculate_budget_from_job cfg job = BudgetResult.ok
      { material := mi
        tiempo_corte_minutos := roundTo 2 (job_total_time job mi)
        coste_corte := roundTo 2 (job_total_time job mi * cfg.tarifa_por_minuto)
        coste_material := roundTo 2 (job.material_area_m2 / mi.tamano_plancha * mi.precio_plancha)
        subtotal := roundTo 2 (job_total_time job mi * cfg.tarifa_por_minuto
          + roundTo 2 (job.material_area_m2 / mi.tamano_plancha * mi.precio_plancha))
        margen_beneficio := roundTo 2 ((job_total_time job mi * cfg.tarifa_por_minuto
          + roundTo 2 (job.material_area_m2 / mi.tamano_plancha * mi.precio_plancha))
          * (cfg.margen_beneficio / 100))
        total := roundTo 2 (job_total_time job mi * cfg.tarifa_por_minuto
          + roundTo 2 (job.material_area_m2 / mi.tamano_plancha * mi.precio_plancha)
          + (job_total_time job mi * cfg.tarifa_por_minuto
            + roundTo 2 (job.material_area_m2 / mi.tamano_plancha * mi.precio_plancha))
            * (cfg.margen_beneficio / 100))
        layers := job_layers_breakdown job mi
        parametros_corte := resolve_process_params mi } := by
  unfold calculate_budget_from_job calculate_material_cost
  rw [hfind]
  simp [htam]

/-! ## Claim C1 -/

/-- C1 (amended): for every successful quote of calculate_budget_from_job,
the reported subtotal equals cutting cost plus material cost exactly, total
equals subtotal plus margin to within one cent of 2-decimal rounding, and
the margin is the configured margin fraction of the subtotal to within one
cent.  (The original clause that monetary values are rounded only at
output is refuted by rounding_at_output_counterexample: the material cost is
rounded to 2 decimals inside calculate_material_cost before entering the
subtotal accumulation.) -/
theorem quote_monetary_invariants (cfg : Config) (job : Job) (r : BudgetOk)
    (hok : calculate_budget_from_job cfg job = BudgetResult.ok r)
    (hm0 : 0 ≤ cfg.margen_beneficio) (hm1 : cfg.margen_beneficio ≤ 100) :
    r.subtotal = r.coste_corte + r.coste_material ∧
    |r.total - (r.subtotal + r.margen_beneficio)| ≤ 1 / 100 ∧
    |r.margen_beneficio - cfg.margen_beneficio / 100 * r.subtotal| ≤ 1 / 100 := by
  cases hfind : find_material cfg job.material job.grosor job.color with
  | none =>
      unfold calculate_budget_from_job at hok
      rw [hfind] at hok
      simp at hok
  | some mi =>
      by_cases htam : mi.tamano_plancha = 0
      · unfold calculate_budget_from_job calculate_material_cost at hok
        rw [hfind] at hok
        simp [htam] at hok
      · have heq := calculate_budget_from_job_ok cfg job mi hfind htam
        rw [heq] at hok
        rw [BudgetResult.ok.injEq] at hok
        subst hok
        set T := job_total_time job mi * cfg.tarifa_por_minuto with hT
        set M := job.material_area_m2 / mi.tamano_plancha * mi.precio_plancha with hM
        set S := T + roundTo 2 M with hS
        have hsub : roundTo 2 S = roundTo 2 T + roundTo 2 M := by
          obtain ⟨k, hk⟩ := roundTo_exists_int 2 M
          rw [hS, hk]
          exact roundTo_add_int_div 2 T k
        refine ⟨hsub, ?_, ?_⟩
        · have h := abs_roundTo_add_sub 2 S (S * (cfg.margen_beneficio / 100))
          simpa using h
        · have hm0q : 0 ≤ cfg.margen_beneficio / 100 := by positivity
          have hm1q : cfg.margen_beneficio / 100 ≤ 1 := by linarith
          have h := abs_roundTo_mul_sub 2 (cfg.margen_beneficio / 100) S hm0q hm1q
          have hcomm : S * (cfg.margen_beneficio / 100) = cfg.margen_beneficio / 100 * S :=
            mul_comm _ _
          simp only [hcomm]
          simpa using h

/-- Projection used for comparing reported subtotals between the code and
the output-only-rounding spec model. -/
def budget_subtotal? : BudgetResult → Option ℚ
  | BudgetResult.ok r => some r.subtotal
  | _ => none

/-- Concrete material for the C1 rounding counterexample. -/
def c1_material : Material :=
  { material := "M", grosor := .num 3, color := "C", precio_plancha := 1, tamano_plancha := 1,
    velocidad_corte := some 100, potencia_laser := some 90, fuerza_aire := some (8 / 10) }

def c1_cfg : Config :=
  { tarifa_por_minuto := 8 / 10, margen_beneficio := 50, materiales := [c1_material] }

def c1_job : Job :=
  { material := "M", grosor := 3, color := "C", material_area_m2 := 149 / 10000,
    layers := [{ name := some "corte", type := "cut_outside", length_m := 2 / 100 }] }

/-- C1 counterexample: the code does NOT round monetary values only at the
point of output.  On this job the raw cutting cost is 0.0008 and the raw
material cost 0.0149; the code rounds the material cost to 0.01 before
accumulating, reporting subtotal 0.01, while rounding only at output would
report round2(0.0008 + 0.0149) = 0.02. -/
theorem rounding_at_output_counterexample :
    budget_subtotal? (calculate_budget_from_job c1_cfg c1_job) = some (1 / 100) ∧
    budget_subtotal? (calculate_budget_from_job_spec_rounding c1_cfg c1_job) = some (2 / 100) := by
  have hM : lowerStr "M" = "m" := by decide
  have hC : lowerStr "C" = "c" := by decide
  have hcut : lowerStr "cut_outside" = "cut_outside" := by decide
  constructor
  · norm_num [budget_subtotal?, calculate_budget_from_job, c1_cfg, c1_job, c1_material,
      find_material, material_matches, grosorQ?, hM, hC, hcut, job_total_time,
      job_layers_breakdown, calculate_layer_time_minutes, calculate_layer_time_minutes_p,
      resolve_process_params, default_cut_params, default_engrave_params, speed_m_per_min,
      calculate_material_cost, roundTo, round_eq]
  · norm_num [budget_subtotal?, calculate_budget_from_job_spec_rounding, c1_cfg, c1_job,
      c1_material, find_material, material_matches, grosorQ?, hM, hC, hcut, job_total_time,
      job_layers_breakdown, calculate_layer_time_minutes, calculate_layer_time_minutes_p,
      resolve_process_params, default_cut_params, default_engrave_params, speed_m_per_min,
      roundTo, round_eq]

/-- The full result record of the C1/C6 witness job. -/
def c1_result : BudgetOk :=
  { material := c1_material, tiempo_corte_minutos := 0, coste_corte := 0,
    coste_material := 1 / 100, subtotal := 1 / 100, margen_beneficio := 1 / 100,
    total := 2 / 100,
    layers := [{ name := "corte", type := "cut_outside", length_m := 2 / 100, area_m2 := 0,
                 time_min := 1 / 1000 }],
    parametros_corte := resolve_process_params c1_material }

/-- C1 witness: the invariants hold on a concrete successful quote. -/
theorem quote_monetary_invariants_witness :
    calculate_budget_from_job c1_cfg c1_job = BudgetResult.ok c1_result ∧
    (c1_result.subtotal = c1_result.coste_corte + c1_result.coste_material ∧
     |c1_result.total - (c1_result.subtotal + c1_result.margen_beneficio)| ≤ 1 / 100 ∧
     |c1_result.margen_beneficio
        - c1_cfg.margen_beneficio / 100 * c1_result.subtotal| ≤ 1 / 100) := by
  have hok : calculate_budget_from_job c1_cfg c1_job = BudgetResult.ok c1_result := by
    have hM : lowerStr "M" = "m" := by decide
    have hC : lowerStr "C" = "c" := by decide
    have hcut : lowerStr "cut_outside" = "cut_outside" := by decide
    norm_num [calculate_budget_from_job, c1_cfg, c1_job, c1_material, c1_result,
      find_material, material_matches, grosorQ?, hM, hC, hcut, job_total_time,
      job_layers_breakdown, calculate_layer_time_minutes, calculate_layer_time_minutes_p,
      resolve_process_params, default_cut_params, default_engrave_params, speed_m_per_min,
      calculate_material_cost, roundTo, round_eq]
  exact ⟨hok, quote_monetary_invariants c1_cfg c1_job c1_result hok
    (by norm_num [c1_cfg]) (by norm_num [c1_cfg])⟩

/-! ## Claim C2 -/

/-- The 100-percent-speed cut parameter set of the worked example in the spec. -/
def c2_p100 : ProcessConfig :=
  { cut := { speed_pct := 100, power_pct := 90, air_bar := 8 / 10, overhead_factor := 105 / 100 }
    engrave := default_engrave_params }

/-- C2: the layer time model computes the specified per-kind times: feed
rate v = (s/100 * 300) * 60 / 1000 m/min; cut_outside and cut_inside use the
same formula (length/v_cut) * overhead with identical cut parameters;
engrave_outline uses (length/v_engrave) * 1.08; engrave_fill converts area
to total_length = area / (hatch/1000) and multiplies by the fill overhead;
hatch spacing defaults to the resolved engrave parameter when the layer does
not override it; times round to 3 decimals and lengths to 4; concretely a
5 m cut_outside layer at 100 percent speed takes 0.292 min and 1 m2 of fill
at 0.25 mm hatch gives total_length 4000 m. -/
theorem layer_time_formulas (p : ProcessConfig) (l : Layer)
    (hcv : 0 < speed_m_per_min p.cut.speed_pct)
    (hev : 0 < speed_m_per_min p.engrave.speed_pct)
    (hh : l.hatch_spacing_mm = none)
    (hph : 0 < p.engrave.hatch_spacing_mm) :
    (∀ s : ℚ, speed_m_per_min s = s / 100 * 300 * 60 / 1000) ∧
    (calculate_layer_time_minutes_p { l with type := "cut_outside" } p).time_min
      = roundTo 3 (l.length_m / speed_m_per_min p.cut.speed_pct * p.cut.overhead_factor) ∧
    (calculate_layer_time_minutes_p { l with type := "cut_inside" } p).time_min
      = (calculate_layer_time_minutes_p { l with type := "cut_outside" } p).time_min ∧
    (calculate_layer_time_minutes_p { l with type := "engrave_outline" } p).time_min
      = roundTo 3 (l.length_m / speed_m_per_min p.engrave.speed_pct * (108 / 100)) ∧
    (calculate_layer_time_minutes_p { l with type := "engrave_fill" } p).length_m
      = roundTo 4 (l.area_m2 / (p.engrave.hatch_spacing_mm / 1000)) ∧
    (calculate_layer_time_minutes_p { l with type := "engrave_fill" } p).time_min
      = roundTo 3 (l.area_m2 / (p.engrave.hatch_spacing_mm / 1000)
          / speed_m_per_min p.engrave.speed_pct * p.engrave.fill_overhead_factor) ∧
    (calculate_layer_time_minutes_p
        { name := none, type := "cut_outside", length_m := 5, area_m2 := 0,
          hatch_spacing_mm := none } c2_p100).time_min = 292 / 1000 ∧
    (calculate_layer_time_minutes_p
        { name := none, type := "engrave_fill", length_m := 0, area_m2 := 1,
          hatch_spacing_mm := none } c2_p100).length_m = 4000 := by
  have hco : lowerStr "cut_outside" = "cut_outside" := by decide
  have hci : lowerStr "cut_inside" = "cut_inside" := by decide
  have heo : lowerStr "engrave_outline" = "engrave_outline" := by decide
  have hef : lowerStr "engrave_fill" = "engrave_fill" := by decide
  have hhatch : fill_hatch_spacing { l with type := "engrave_fill" } p
      = p.engrave.hatch_spacing_mm := by
    simp [fill_hatch_spacing, hh, ne_of_gt hph]
  have hsm : 0 < p.engrave.hatch_spacing_mm / 1000 := by positivity
  refine ⟨fun s => rfl, ?_, ?_, ?_, ?_, ?_, ?_, ?_⟩
  · simp only [calculate_layer_time_minutes_p, hco]
    norm_num [if_pos hcv]
  · simp only [calculate_layer_time_minutes_p, hco, hci]
    norm_num
  · simp only [calculate_layer_time_minutes_p, heo]
    rw [if_neg (by decide : ¬("engrave_outline" = "cut_outside"
      ∨ "engrave_outline" = "cut_inside"))]
    norm_num [if_pos hev]
  · simp only [calculate_layer_time_minutes_p, hef, hhatch]
    rw [if_neg (by decide : ¬("engrave_fill" = "cut_outside" ∨ "engrave_fill" = "cut_inside")),
      if_neg (by decide : ¬("engrave_fill" = "engrave_outline"))]
    norm_num [if_pos hsm, if_pos hph]
  · simp only [calculate_layer_time_minutes_p, hef, hhatch]
    rw [if_neg (by decide : ¬("engrave_fill" = "cut_outside" ∨ "engrave_fill" = "cut_inside")),
      if_neg (by decide : ¬("engrave_fill" = "engrave_outline"))]
    norm_num [if_pos hsm, if_pos hph, if_pos hev]
  · norm_num [calculate_layer_time_minutes_p, hco, c2_p100, default_engrave_params,
      speed_m_per_min, roundTo, round_eq]
  · simp only [calculate_layer_time_minutes_p, hef]
    rw [if_neg (by decide : ¬("engrave_fill" = "cut_outside" ∨ "engrave_fill" = "cut_inside")),
      if_neg (by decide : ¬("engrave_fill" = "engrave_outline"))]
    norm_num [c2_p100, default_engrave_params, fill_hatch_spacing, speed_m_per_min,
      roundTo, round_eq]

/-- C2 witness: the cut formula instantiated on the 5 m / 100 percent
example evaluates to 0.292 minutes. -/
theorem layer_time_formulas_witness :
    (calculate_layer_time_minutes_p
        { name := none, type := "cut_outside", length_m := 5, area_m2 := 0,
          hatch_spacing_mm := none } c2_p100).time_min = 292 / 1000 :=
  (layer_time_formulas c2_p100
      { name := none, type := "cut_outside", length_m := 5, area_m2 := 0,
        hatch_spacing_mm := none }
      (by norm_num [speed_m_per_min, c2_p100])
      (by norm_num [speed_m_per_min, c2_p100, default_engrave_params])
      rfl
      (by norm_num [c2_p100, default_engrave_params])).2.2.2.2.2.2.1

/-! ## Claim C5 -/

/-- Helper shared by the zero-feed-rate facts: a cut layer at zero cut speed
percentage gets zero time from the guard. -/
theorem cut_time_zero_of_zero_speed (p : ProcessConfig) (l : Layer)
    (hsp : p.cut.speed_pct = 0)
    (htype : lowerStr l.type = "cut_outside" ∨ lowerStr l.type = "cut_inside") :
    (calculate_layer_time_minutes_p l p).time_min = 0 := by
  have hv : speed_m_per_min p.cut.speed_pct = 0 := by
    rw [hsp]; norm_num [speed_m_per_min]
  simp [calculate_layer_time_minutes_p, htype, hv, roundTo_zero]

/-- C5: a layer of unrecognized kind yields zero time and is passed through
(name, lowered kind and rounded geometry preserved) without failure, and a
zero speed percentage yields zero time for every recognized kind instead of
a division failure. -/
theorem layer_time_guards (p : ProcessConfig) (l : Layer) :
    (lowerStr l.type ∉ ["cut_outside", "cut_inside", "engrave_outline", "engrave_fill"] →
      calculate_layer_time_minutes_p l p =
        { name := l.name.getD (lowerStr l.type), type := lowerStr l.type,
          length_m := roundTo 4 l.length_m, area_m2 := roundTo 4 l.area_m2, time_min := 0 }) ∧
    (p.cut.speed_pct = 0 →
      lowerStr l.type = "cut_outside" ∨ lowerStr l.type = "cut_inside" →
      (calculate_layer_time_minutes_p l p).time_min = 0) ∧
    (p.engrave.speed_pct = 0 →
      lowerStr l.type = "engrave_outline" ∨ lowerStr l.type = "engrave_fill" →
      (calculate_layer_time_minutes_p l p).time_min = 0) := by
  refine ⟨?_, ?_, ?_⟩
  · intro hmem
    simp only [List.mem_cons, List.mem_singleton, not_or] at hmem
    obtain ⟨h1, h2, h3, h4⟩ := hmem
    simp [calculate_layer_time_minutes_p, h1, h2, h3, h4]
  · exact fun hsp htype => cut_time_zero_of_zero_speed p l hsp htype
  · intro hsp htype
    have hv : speed_m_per_min p.engrave.speed_pct = 0 := by
      rw [hsp]; norm_num [speed_m_per_min]
    rcases htype with horn | horn
    · have hne1 : lowerStr l.type ≠ "cut_outside" := by rw [horn]; decide
      have hne2 : lowerStr l.type ≠ "cut_inside" := by rw [horn]; decide
      simp [calculate_layer_time_minutes_p, horn, hv, roundTo_zero]
    · have hne1 : lowerStr l.type ≠ "cut_outside" := by rw [horn]; decide
      simp [calculate_layer_time_minutes_p, horn, hv, roundTo_zero]

/-- All-zero-speed process parameters for the C5 witness. -/
def c5_pz : ProcessConfig :=
  { cut := { speed_pct := 0, power_pct := 90, air_bar := 8 / 10, overhead_factor := 105 / 100 }
    engrave := { speed_pct := 0, power_pct := 30, air_bar := 4 / 10,
                 hatch_spacing_mm := 25 / 100, fill_overhead_factor := 12 / 10 } }

/-- C5 witness: an unrecognized kind passes through with zero time, and a
cut layer at zero speed gets zero time. -/
theorem layer_time_guards_witness :
    calculate_layer_time_minutes_p { name := some "x", type := "Weird", length_m := 3 } c5_pz =
      { name := "x", type := "weird", length_m := roundTo 4 3, area_m2 := roundTo 4 0,
        time_min := 0 } ∧
    (calculate_layer_time_minutes_p
        { name := some "c", type := "cut_outside", length_m := 3 } c5_pz).time_min = 0 := by
  constructor
  · have h := (layer_time_guards c5_pz
        { name := some "x", type := "Weird", length_m := 3 }).1 (by decide)
    simpa using h
  · exact (layer_time_guards c5_pz
      { name := some "c", type := "cut_outside", length_m := 3 }).2.1 rfl (Or.inl (by decide))

/-! ## Claim C3 -/

/-- C3 (amended): catalog lookup matches name and color case-insensitively
and thickness within 0.05 mm.  A query at t plus or minus 0.049 against an
entry of thickness t (same name and color up to case) succeeds; a query
fails whenever the numeric thickness of every same-name same-color entry lies
strictly further than 0.05 from the query (in particular at t plus or minus
0.051 when no other entry interferes — the unconditional failure of the
original claim is refuted by find_tolerance_counterexample); entries with a
non numeric thickness are skipped, never returned and never raise. -/
theorem find_material_tolerance (cfg : Config) (m : Material) (t : ℚ)
    (qname qcolor : String)
    (hm : m ∈ cfg.materiales) (ht : grosorQ? m = some t)
    (hn : lowerStr qname = lowerStr m.material) (hc : lowerStr qcolor = lowerStr m.color) :
    (find_material cfg qname (t + 49 / 1000) qcolor).isSome ∧
    (find_material cfg qname (t - 49 / 1000) qcolor).isSome ∧
    (∀ g : ℚ,
      (∀ m2 ∈ cfg.materiales, lowerStr m2.material = lowerStr qname →
        lowerStr m2.color = lowerStr qcolor →
        ∀ t2, grosorQ? m2 = some t2 → ¬ (|t2 - g| ≤ 5 / 100)) →
      find_material cfg qname g qcolor = none) ∧
    (∀ (mn : String) (g : ℚ) (c : String) (m2 : Material),
      find_material cfg mn g c = some m2 → (grosorQ? m2).isSome) := by
  have hmatch : ∀ g : ℚ, |t - g| ≤ 5 / 100 →
      material_matches qname g qcolor m = true := by
    intro g hg
    simp only [material_matches, ht, Bool.and_eq_true, beq_iff_eq]
    exact ⟨⟨hn.symm, hc.symm⟩, decide_eq_true hg⟩
  refine ⟨?_, ?_, ?_, ?_⟩
  · apply List.find?_isSome.mpr
    refine ⟨m, hm, hmatch _ ?_⟩
    have : t - (t + 49 / 1000) = -(49 / 1000) := by ring
    rw [this, abs_neg]
    norm_num [abs_le]
  · apply List.find?_isSome.mpr
    refine ⟨m, hm, hmatch _ ?_⟩
    have : t - (t - 49 / 1000) = 49 / 1000 := by ring
    rw [this]
    norm_num [abs_le]
  · intro g hsep
    apply List.find?_eq_none.mpr
    intro m2 hm2
    simp only [material_matches, Bool.and_eq_true, beq_iff_eq]
    rintro ⟨⟨h1, h2⟩, h3⟩
    cases hq : grosorQ? m2 with
    | none => rw [hq] at h3; exact Bool.false_ne_true h3
    | some t2 =>
        rw [hq] at h3
        exact hsep m2 hm2 h1 h2 t2 hq (of_decide_eq_true h3)
  · intro mn g c m2 hfind
    have hp := List.find?_some hfind
    simp only [material_matches, Bool.and_eq_true] at hp
    obtain ⟨-, h3⟩ := hp
    cases hq : grosorQ? m2 with
    | none => rw [hq] at h3; exact absurd h3 Bool.false_ne_true
    | some t2 => simp

/-- Catalog entries of the C3 counterexample: two same-name same-color
entries 0.08 mm apart. -/
def c3_material_a : Material :=
  { material := "MDF", grosor := .num 3, color := "Natural", precio_plancha := 155 / 10,
    tamano_plancha := 144 / 100, velocidad_corte := some 1200 }

def c3_material_b : Material :=
  { material := "MDF", grosor := .num (308 / 100), color := "Natural",
    precio_plancha := 155 / 10, tamano_plancha := 144 / 100, velocidad_corte := some 1200 }

def c3_cfg : Config :=
  { tarifa_por_minuto := 8 / 10, margen_beneficio := 50,
    materiales := [c3_material_a, c3_material_b] }

/-- C3 counterexample: against the entry of thickness 3, the query at
3 + 0.051 does NOT fail — a second entry of thickness 3.08 of the same name
and color is within tolerance, so the unconditional "t plus or minus 0.051
fails" part of the claim is false. -/
theorem find_tolerance_counterexample :
    find_material c3_cfg "MDF" (3 + 51 / 1000) "Natural" = some c3_material_b := by
  have h1 : lowerStr "MDF" = "mdf" := by decide
  have h2 : lowerStr "Natural" = "natural" := by decide
  norm_num [find_material, c3_cfg, material_matches, c3_material_a, c3_material_b,
    grosorQ?, h1, h2, lt_abs, abs_le]

/-- C3 witness: the amended tolerance facts instantiated on the concrete
thickness-3 entry (the plus or minus 0.051 failure under a separation
premise is exercised at query thickness 1000). -/
theorem find_material_tolerance_witness :
    (find_material c3_cfg "MDF" (3 + 49 / 1000) "Natural").isSome ∧
    find_material c3_cfg "MDF" 1000 "Natural" = none := by
  have hmem : c3_material_a ∈ c3_cfg.materiales := by simp [c3_cfg]
  have h := find_material_tolerance c3_cfg c3_material_a 3 "MDF" "Natural" hmem rfl rfl rfl
  refine ⟨h.1, h.2.2.1 1000 ?_⟩
  intro m2 hm2 hname hcolor t2 ht2
  have hcases : m2 = c3_material_a ∨ m2 = c3_material_b := by
    simpa [c3_cfg] using hm2
  rcases hcases with rfl | rfl
  · simp only [grosorQ?, c3_material_a, Option.some.injEq] at ht2
    subst ht2
    norm_num [abs_le]
  · simp only [grosorQ?, c3_material_b, Option.some.injEq] at ht2
    subst ht2
    norm_num [abs_le]

/-! ## Claim C4 -/

/-- C4: the resolver builds cut parameters from the own values of the material
(speed falling back to 25 when velocidad_corte is not numeric, power to 90
and air to 0.8 when missing) with fixed 1.05 overhead; engrave parameters
always start from the fixed 60/30/0.4/0.25/1.2 defaults regardless of the
cut speed of the material; a per-operation override block overwrites exactly its
present fields. -/
theorem resolver_defaults_and_overrides (m : Material) :
    (m.process_params = none →
      resolve_process_params m =
        { cut := { speed_pct := m.velocidad_corte.getD 25,
                   power_pct := m.potencia_laser.getD 90,
                   air_bar := m.fuerza_aire.getD (8 / 10), overhead_factor := 105 / 100 },
          engrave := { speed_pct := 60, power_pct := 30, air_bar := 4 / 10,
                       hatch_spacing_mm := 25 / 100, fill_overhead_factor := 12 / 10 } }) ∧
    (∀ pp, m.process_params = some pp → pp.engrave = none →
      (resolve_process_params m).engrave =
        { speed_pct := 60, power_pct := 30, air_bar := 4 / 10,
          hatch_spacing_mm := 25 / 100, fill_overhead_factor := 12 / 10 }) ∧
    (∀ pp co, m.process_params = some pp → pp.cut = some co →
      (resolve_process_params m).cut =
        { speed_pct := co.speed_pct.getD (m.velocidad_corte.getD 25),
          power_pct := co.power_pct.getD (m.potencia_laser.getD 90),
          air_bar := co.air_bar.getD (m.fuerza_aire.getD (8 / 10)),
          overhead_factor := co.overhead_factor.getD (105 / 100) }) ∧
    (∀ pp eo, m.process_params = some pp → pp.engrave = some eo →
      (resolve_process_params m).engrave =
        { speed_pct := eo.speed_pct.getD 60, power_pct := eo.power_pct.getD 30,
          air_bar := eo.air_bar.getD (4 / 10),
          hatch_spacing_mm := eo.hatch_spacing_mm.getD (25 / 100),
          fill_overhead_factor := eo.fill_overhead_factor.getD (12 / 10) }) := by
  refine ⟨?_, ?_, ?_, ?_⟩
  · intro h
    simp [resolve_process_params, h, default_cut_params, default_engrave_params]
  · intro pp h he
    simp [resolve_process_params, h, he, apply_engrave_override, default_engrave_params]
  · intro pp co h hco
    simp [resolve_process_params, h, hco, apply_cut_override, default_cut_params]
  · intro pp eo h heo
    simp [resolve_process_params, h, heo, apply_engrave_override, default_engrave_params]

/-- Material of the C4 witness: a numeric-speed material with an override
block setting only some fields (cut speed 40, engrave power 77). -/
def c4_material : Material :=
  { material := "X", grosor := .num 3, color := "N", velocidad_corte := some 1000,
    process_params := some
      { cut := some { speed_pct := some 40 }
        engrave := some { power_pct := some 77 } } }

/-- C4 witness: on the concrete material the overridden fields change and
every other field keeps its default. -/
theorem resolver_defaults_and_overrides_witness :
    (resolve_process_params c4_material).cut =
      { speed_pct := 40, power_pct := 90, air_bar := 8 / 10, overhead_factor := 105 / 100 } ∧
    (resolve_process_params c4_material).engrave =
      { speed_pct := 60, power_pct := 77, air_bar := 4 / 10, hatch_spacing_mm := 25 / 100,
        fill_overhead_factor := 12 / 10 } := by
  have h := resolver_defaults_and_overrides c4_material
  constructor
  · have hc := h.2.2.1 _ _ rfl rfl
    simpa [c4_material] using hc
  · have he := h.2.2.2 _ _ rfl rfl
    simpa [c4_material] using he

/-! ## Claim C6 -/

/-- C6: the aggregator is layer-order invariant — permuting the layer list
leaves total time and total price unchanged — while the reported breakdown
list mirrors the input layer order. -/
theorem aggregate_layer_order_invariant (cfg : Config) (job : Job) (layers2 : List Layer)
    (mi : Material)
    (hperm : job.layers.Perm layers2)
    (hfind : find_material cfg job.material job.grosor job.color = some mi)
    (htam : mi.tamano_plancha ≠ 0) :
    ∃ r r2 : BudgetOk,
      calculate_budget_from_job cfg job = BudgetResult.ok r ∧
      calculate_budget_from_job cfg { job with layers := layers2 } = BudgetResult.ok r2 ∧
      r.tiempo_corte_minutos = r2.tiempo_corte_minutos ∧
      r.total = r2.total ∧
      r.layers = job.layers.map (fun l => calculate_layer_time_minutes l mi) ∧
      r2.layers = layers2.map (fun l => calculate_layer_time_minutes l mi) := by
  have h1 := calculate_budget_from_job_ok cfg job mi hfind htam
  have h2 := calculate_budget_from_job_ok cfg { job with layers := layers2 } mi hfind htam
  have htime : job_total_time job mi = job_total_time { job with layers := layers2 } mi := by
    unfold job_total_time job_layers_breakdown
    exact ((hperm.map _).map _).sum_eq
  exact ⟨_, _, h1, h2, by simp [htime], by simp [htime],
    by simp [job_layers_breakdown], by simp [job_layers_breakdown]⟩

/-- Two-layer job for the C6 witness. -/
def c6_layer_a : Layer := { name := some "a", type := "cut_outside", length_m := 2 / 100 }

def c6_layer_b : Layer := { name := some "b", type := "engrave_outline", length_m := 3 / 100 }

def c6_job : Job :=
  { material := "M", grosor := 3, color := "C", material_area_m2 := 149 / 10000,
    layers := [c6_layer_a, c6_layer_b] }

/-- C6 witness: swapping the two layers of a concrete job preserves the
totals while the breakdown lists mirror the respective input orders. -/
theorem aggregate_layer_order_invariant_witness :
    ∃ r r2 : BudgetOk,
      calculate_budget_from_job c1_cfg c6_job = BudgetResult.ok r ∧
      calculate_budget_from_job c1_cfg { c6_job with layers := [c6_layer_b, c6_layer_a] }
        = BudgetResult.ok r2 ∧
      r.tiempo_corte_minutos = r2.tiempo_corte_minutos ∧
      r.total = r2.total ∧
      r.layers = [c6_layer_a, c6_layer_b].map
        (fun l => calculate_layer_time_minutes l c1_material) ∧
      r2.layers = [c6_layer_b, c6_layer_a].map
        (fun l => calculate_layer_time_minutes l c1_material) := by
  have hfind : find_material c1_cfg c6_job.material c6_job.grosor c6_job.color
      = some c1_material := by
    have hM : lowerStr "M" = "m" := by decide
    have hC : lowerStr "C" = "c" := by decide
    norm_num [find_material, c1_cfg, c6_job, c1_material, material_matches, grosorQ?, hM, hC,
      abs_le]
  have htam : c1_material.tamano_plancha ≠ 0 := by
    norm_num [c1_material]
  exact aggregate_layer_order_invariant c1_cfg c6_job [c6_layer_b, c6_layer_a] c1_material
    (List.Perm.swap _ _ _) hfind htam

/-! ## Claim C7 -/

/-- C7: a failed catalog lookup returns the MaterialNotFound error value
carrying the full available-materials list, each entry formatted as
"name thicknessmm color", whose length equals the catalog size. -/
theorem lookup_failure_alternatives (cfg : Config) (job : Job)
    (hfind : find_material cfg job.material job.grosor job.color = none) :
    calculate_budget_from_job cfg job = BudgetResult.err
      ⟨material_not_found_msg job.material job.grosor job.color, get_available_materials cfg⟩ ∧
    (get_available_materials cfg).length = cfg.materiales.length ∧
    get_available_materials cfg = cfg.materiales.map
      (fun m => m.material ++ " " ++ numOrStrDisplay m.grosor ++ "mm " ++ m.color) := by
  refine ⟨?_, ?_, rfl⟩
  · unfold calculate_budget_from_job
    rw [hfind]
  · simp [get_available_materials]

/-- C7 witness: a concrete miss returns the error with both catalog entries
listed. -/
theorem lookup_failure_alternatives_witness :
    calculate_budget_from_job c3_cfg
        { material := "Granite", grosor := 3, color := "Natural" } = BudgetResult.err
      ⟨material_not_found_msg "Granite" 3 "Natural", get_available_materials c3_cfg⟩ ∧
    (get_available_materials c3_cfg).length = 2 := by
  have hfind : find_material c3_cfg "Granite" 3 "Natural" = none := by
    have h1 : lowerStr "Granite" = "granite" := by decide
    have h2 : lowerStr "MDF" = "mdf" := by decide
    have hne : ("mdf" : String) ≠ "granite" := by decide
    norm_num [find_material, c3_cfg, material_matches, c3_material_a, c3_material_b,
      grosorQ?, h1, h2, hne]
  have h := lookup_failure_alternatives c3_cfg
    { material := "Granite", grosor := 3, color := "Natural" } hfind
  exact ⟨h.1, by rw [h.2.1]; rfl⟩

/-! ## Claim C10 -/

/-- C10: the legacy single-length pipeline divides by the configured cut
speed without a guard — a matched material with velocidad_corte 0 makes
calculate_budget raise ZeroDivisionError instead of returning a quote or an
error value — while the layer-based path yields time 0 for the same
material. -/
theorem legacy_zero_speed_raises (cfg : Config) (lon : ℚ) (mn : String) (g : ℚ) (c : String)
    (cant : ℚ) (mi : Material)
    (hfind : find_material cfg mn g c = some mi)
    (hvel : mi.velocidad_corte = some 0)
    (hpp : mi.process_params = none) :
    calculate_budget cfg lon mn g c cant = LegacyBudgetResult.raised PyRaise.zeroDivision ∧
    ∀ l : Layer, lowerStr l.type = "cut_outside" ∨ lowerStr l.type = "cut_inside" →
      (calculate_layer_time_minutes l mi).time_min = 0 := by
  constructor
  · unfold calculate_budget
    rw [hfind]
    norm_num [hvel, calculate_cutting_time]
  · intro l htype
    have hres : (resolve_process_params mi).cut.speed_pct = 0 := by
      simp [resolve_process_params, hpp, default_cut_params, hvel]
    exact cut_time_zero_of_zero_speed (resolve_process_params mi) l hres htype

/-- Zero-speed material for the C10 witness. -/
def c10_material : Material :=
  { material := "Z", grosor := .num 3, color := "C", precio_plancha := 1, tamano_plancha := 1,
    velocidad_corte := some 0 }

def c10_cfg : Config :=
  { tarifa_por_minuto := 8 / 10, margen_beneficio := 50, materiales := [c10_material] }

/-- C10 witness: the raise and the layer-path guard on a concrete zero-speed
material. -/
theorem legacy_zero_speed_raises_witness :
    calculate_budget c10_cfg 5 "Z" 3 "C" 1 = LegacyBudgetResult.raised PyRaise.zeroDivision ∧
    (calculate_layer_time_minutes { name := some "a", type := "cut_outside", length_m := 5 }
      c10_material).time_min = 0 := by
  have hfind : find_material c10_cfg "Z" 3 "C" = some c10_material := by
    have h1 : lowerStr "Z" = "z" := by decide
    have h2 : lowerStr "C" = "c" := by decide
    norm_num [find_material, c10_cfg, c10_material, material_matches, grosorQ?, h1, h2, abs_le]
  have h := legacy_zero_speed_raises c10_cfg 5 "Z" 3 "C" 1 c10_material hfind rfl rfl
  exact ⟨h.1, h.2 _ (Or.inl (by decide))⟩

/-! ## Claim C9 -/

/-- C9: the normalizer parses numeric strings with unit suffixes (the Grosor
path strips "mm") and comma decimal separators (the area path), converts mm2
areas to m2, and for every unparseable value _safe_float returns the
caller-supplied default instead of raising; non numeric non string values
also fall back to the default, as do the textual sentinels. -/
theorem normalizer_numeric_parsing :
    parse_grosor (.str "4mm") = 4 ∧
    extract_area_from_string (.str "0,6 m²") = 6 / 10 ∧
    extract_area_from_string (.str "2 mm²") = 2 / 1000000 ∧
    (∀ (s : String) (d : ℚ), pyFloat? (stripStr s) = none → safe_float (.str s) d = d) ∧
    (∀ d : ℚ, safe_float .null d = d) ∧
    (∀ (xs : List JVal) (d : ℚ), safe_float (.arr xs) d = d) ∧
    (∀ (kvs : List (String × JVal)) (d : ℚ), safe_float (.obj kvs) d = d) ∧
    (∀ d : ℚ, safe_float (.str "No especificado") d = d) := by
  refine ⟨?_, ?_, ?_, ?_, fun d => rfl, fun xs d => rfl, fun kvs d => rfl, ?_⟩
  · simp +decide [parse_grosor, safe_float, pyStr, removeMM, stripStr, lowerStr, pyFloat?,
      splitSign, parseUnsignedFloat, digitsToNat]
  · simp +decide [extract_area_from_string, findAreaMatch, isAreaClassChar, unitIsMM?,
      safe_float, stripStr, lowerStr, pyFloat?, splitSign, parseUnsignedFloat, digitsToNat]
  · simp +decide [extract_area_from_string, findAreaMatch, isAreaClassChar, unitIsMM?,
      safe_float, stripStr, lowerStr, pyFloat?, splitSign, parseUnsignedFloat, digitsToNat]
  · intro s d h
    simp [safe_float, h]
  · intro d
    simp +decide [safe_float, stripStr, lowerStr]

/-- C9 witness: the fallback branch exercised on a concrete unparseable
string, together with the unit-suffix parse. -/
theorem normalizer_numeric_parsing_witness :
    safe_float (.str "abc") 7 = 7 ∧ parse_grosor (.str "4mm") = 4 := by
  have h := normalizer_numeric_parsing
  refine ⟨h.2.2.2.1 "abc" 7 ?_, h.1⟩
  simp +decide [pyFloat?, stripStr, splitSign, parseUnsignedFloat]

/-! ## Claim C8 -/

/-- Legacy-shaped payload with an empty Pedido section: the material-provider
section is entirely missing. -/
def c8_legacy_payload : JVal :=
  .obj [("Cliente", .obj [("Nombre y Apellidos", .str "Ana")]), ("Pedido", .obj [])]

/-- C8 counterexample: a non-empty mapping in the LEGACY shape whose
material-provider section is entirely missing does NOT normalize to the
fallback material — the adapter returns it unchanged and
calculate_budget_from_frontend answers with a material-information error, so
the original claim fails for legacy payloads (and the error also refutes
"validation errors only for empty or non-mapping payloads"). -/
theorem fallback_material_counterexample :
    normalize_pipeline c3_cfg c8_legacy_payload =
      Except.error "Información del material no encontrada" := by
  simp +decide [normalize_pipeline, adapt_frontend_format, build_job_from_frontend,
    c8_legacy_payload, truthy, hasKey, isObj, jGetD, jGet, jLookup]

/-- Layers adapted by adapt_capas always normalize: every adapted capa is a
dict whose nombre is a string, so the per-capa loop of
calculate_budget_from_frontend cannot fail on them. -/
theorem build_layers_of_adapt_capas (xs : List JVal) :
    ∀ ys, adapt_capas xs = Except.ok ys →
      ∀ (avail : List String) (area : ℚ), ∃ ls, build_layers avail area ys = Except.ok ls := by
  induction xs with
  | nil =>
      intro ys h avail area
      simp only [adapt_capas, Except.ok.injEq] at h
      subst h
      exact ⟨[], rfl⟩
  | cons capa rest ih =>
      intro ys h avail area
      match capa with
      | .null | .bool _ | .num _ | .str _ | .arr _ =>
          exact ih ys h avail area
      | .obj kvs =>
          simp only [adapt_capas] at h
          cases hv : (if truthy (jGetD (JVal.obj kvs) "vectores" JVal.null) then
              jIntOf? (jGetD (JVal.obj kvs) "vectores" JVal.null) else some 0) with
          | none => rw [hv] at h; exact absurd h (by simp)
          | some vec =>
              rw [hv] at h
              cases ha : (if truthy (jGetD (JVal.obj kvs) "area_material" JVal.null) then
                  jFloatOf? (jGetD (JVal.obj kvs) "area_material" JVal.null) else some 0) with
              | none => rw [ha] at h; exact absurd h (by simp)
              | some area2 =>
                  rw [ha] at h
                  cases hrest : adapt_capas rest with
                  | error e => rw [hrest] at h; exact absurd h (by simp)
                  | ok tail =>
                      rw [hrest] at h
                      simp only [Except.ok.injEq] at h
                      subst h
                      obtain ⟨ls, hls⟩ := ih tail hrest avail area
                      simp +decide [build_layers, jGetD, jGet, jLookup, hls]

theorem jLookup_append (l1 l2 : List (String × JVal)) (k : String) :
    jLookup (l1 ++ l2) k = (jLookup l1 k).or (jLookup l2 k) := by
  unfold jLookup
  rw [List.find?_append]
  cases List.find? (fun kv => kv.1 == k) l1 <;> simp

theorem jLookup_base_provider (d p : JVal) :
    jLookup (adapt_base_fields d p) "¿Quién proporciona el material?" =
      some (.obj [("proveedor", .str "Arkcutt"),
        ("Material seleccionado", jGetD p "material_seleccionado" (.str "Contrachapado")),
        ("Grosor", .str "4"), ("Color", .str "light-wood")]) := by
  simp +decide [adapt_base_fields, jLookup]

theorem jLookup_base_capas (d p : JVal) : jLookup (adapt_base_fields d p) "Capas" = none := by
  simp +decide [adapt_base_fields, jLookup]

theorem jLookup_recogida_capas (p : JVal) : jLookup (adapt_recogida p) "Capas" = none := by
  unfold adapt_recogida
  cases hj : jGet p "datos_recogida" with
  | none => simp [jLookup]
  | some v => cases v <;> simp +decide [jLookup]

/-- Normalisation succeeds with the fixed fallback material whenever the
adapted payload carries the default provider block (and its Capas list, if
any, normalizes). -/
theorem build_job_fallback (cfg : Config) (cl : JVal) (fields : List (String × JVal))
    (hprov : jLookup fields "¿Quién proporciona el material?" = some default_material_block)
    (hcap : ∀ v, jLookup fields "Capas" = some v →
      ∃ ys, v = JVal.arr ys ∧ ∀ (avail : List String) (area : ℚ),
        ∃ ls, build_layers avail area ys = Except.ok ls) :
    ∃ job, build_job_from_frontend cfg (.obj [("Cliente", cl), ("Pedido", .obj fields)]) =
        Except.ok job ∧
      job.material = "Contrachapado" ∧ job.grosor = 4 ∧ job.color = "light-wood" := by
  have hg : parse_grosor (.str "4") = 4 := by
    simp +decide [parse_grosor, safe_float, pyStr, removeMM, stripStr, lowerStr, pyFloat?,
      splitSign, parseUnsignedFloat, digitsToNat]
  have hmat : normalize_material_name "Contrachapado" = "Contrachapado" := by decide
  have hcol : normalize_color_name "light-wood" = "light-wood" := by decide
  have htop : jGetD (.obj [("Cliente", cl), ("Pedido", .obj fields)]) "Pedido" .null
      = .obj fields := by
    simp +decide [jGetD, jGet, jLookup]
  have hprovD : jGetD (.obj fields) "¿Quién proporciona el material?" .null
      = default_material_block := by
    simp [jGetD, jGet, hprov]
  have hm1 : jGetD (.obj [("proveedor", JVal.str "Arkcutt"),
        ("Material seleccionado", JVal.str "Contrachapado"), ("Grosor", JVal.str "4"),
        ("Color", JVal.str "light-wood")]) "Material seleccionado" (.str "")
      = .str "Contrachapado" := by
    simp +decide [jGetD, jGet, jLookup]
  have hm2 : jGetD (.obj [("proveedor", JVal.str "Arkcutt"),
        ("Material seleccionado", JVal.str "Contrachapado"), ("Grosor", JVal.str "4"),
        ("Color", JVal.str "light-wood")]) "Color" (.str "") = .str "light-wood" := by
    simp +decide [jGetD, jGet, jLookup]
  have hm3 : jGetD (.obj [("proveedor", JVal.str "Arkcutt"),
        ("Material seleccionado", JVal.str "Contrachapado"), ("Grosor", JVal.str "4"),
        ("Color", JVal.str "light-wood")]) "Grosor" (.str "") = .str "4" := by
    simp +decide [jGetD, jGet, jLookup]
  cases hl : jLookup fields "Capas" with
  | none =>
      have hcapG : jGet (JVal.obj fields) "Capas" = none := by simpa [jGet] using hl
      simp [build_job_from_frontend, truthy, isObj, htop, hprovD, default_material_block,
        hm1, hm2, hm3, hcapG, build_layers, hg, hmat, hcol]
  | some v =>
      obtain ⟨ys, rfl, hbuild⟩ := hcap v hl
      have hcapG : jGet (JVal.obj fields) "Capas" = some (JVal.arr ys) := by
        simpa [jGet] using hl
      obtain ⟨ls, hls⟩ := hbuild (get_available_materials cfg)
        (extract_area_from_string (jGetD (.obj fields) "Area material" (.str "0 mm²")))
      simp [build_job_from_frontend, truthy, isObj, htop, hprovD, default_material_block,
        hm1, hm2, hm3, hcapG, hls, hg, hmat, hcol]

/-- C8 (amended): for every NEW-shape payload — a truthy mapping not
carrying both legacy keys Cliente and Pedido — whose pedido section (when a
mapping) has no material_seleccionado key and whose capas entries adapt
without a conversion error, normalization synthesizes the fixed provider
block (Arkcutt / Contrachapado / 4mm / light-wood) and produces a Job whose
material resolves to that fallback.  (The original unrestricted claim is
refuted by fallback_material_counterexample: a legacy-shaped payload whose
material-provider section is missing yields an error, not the fallback.) -/
theorem fallback_material_for_new_shape (cfg : Config) (kvs : List (String × JVal))
    (htr : truthy (.obj kvs) = true)
    (hleg : (hasKey (.obj kvs) "Cliente" && hasKey (.obj kvs) "Pedido") = false)
    (hped : ∀ pkvs, jGetD (.obj kvs) "pedido" .null = .obj pkvs →
      jGet (.obj pkvs) "material_seleccionado" = none ∧
      ∀ xs, jGet (.obj pkvs) "capas" = some (.arr xs) →
        ∃ ys, adapt_capas xs = Except.ok ys) :
    ∃ adapted job,
      adapt_frontend_format (.obj kvs) = Except.ok adapted ∧
      jGet (jGetD adapted "Pedido" .null) "¿Quién proporciona el material?"
        = some default_material_block ∧
      normalize_pipeline cfg (.obj kvs) = Except.ok job ∧
      job.material = "Contrachapado" ∧ job.grosor = 4 ∧ job.color = "light-wood" := by
  have hif1 : ¬((!truthy (JVal.obj kvs)) = true) := by simp [htr]
  have hif2 : ¬((hasKey (JVal.obj kvs) "Cliente" && hasKey (JVal.obj kvs) "Pedido") = true) := by
    simp [hleg]
  by_cases hob : ∃ pkvs, jGetD (JVal.obj kvs) "pedido" JVal.null = JVal.obj pkvs
  case neg =>
    push_neg at hob
    have hadapt : adapt_frontend_format (.obj kvs) = Except.ok
        (.obj [("Cliente", adapt_cliente (.obj kvs)),
               ("Pedido", .obj [("¿Quién proporciona el material?",
                 default_material_block)])]) := by
      unfold adapt_frontend_format
      rw [if_neg hif1, if_neg hif2]
      cases hcase : jGetD (JVal.obj kvs) "pedido" JVal.null with
      | obj pkvs => exact absurd hcase (hob pkvs)
      | null => rfl
      | bool b => rfl
      | num q => rfl
      | str s => rfl
      | arr xs => rfl
    obtain ⟨job, hjob, h1, h2, h3⟩ := build_job_fallback cfg (adapt_cliente (.obj kvs))
      [("¿Quién proporciona el material?", default_material_block)]
      (by simp +decide [jLookup])
      (by intro v hv; simp +decide [jLookup] at hv)
    refine ⟨_, job, hadapt, ?_, ?_, h1, h2, h3⟩
    · simp +decide [jGetD, jGet, jLookup]
    · simp only [normalize_pipeline, hadapt, hjob]
  case pos =>
    obtain ⟨pkvs, hcase⟩ := hob
    obtain ⟨hmiss, hcapok⟩ := hped pkvs hcase
    have hmat_default : jGetD (JVal.obj pkvs) "material_seleccionado" (.str "Contrachapado")
        = .str "Contrachapado" := by
      simp [jGetD, hmiss]
    by_cases harr : ∃ xs, jGet (JVal.obj pkvs) "capas" = some (JVal.arr xs)
    case pos =>
      obtain ⟨xs, hcap2⟩ := harr
      obtain ⟨ys, hys⟩ := hcapok xs hcap2
      have hadapt : adapt_frontend_format (.obj kvs) = Except.ok
          (.obj [("Cliente", adapt_cliente (.obj kvs)),
                 ("Pedido", .obj (adapt_base_fields (.obj kvs) (.obj pkvs)
                   ++ [("Capas", .arr ys)] ++ adapt_recogida (.obj pkvs)))]) := by
        unfold adapt_frontend_format
        rw [if_neg hif1, if_neg hif2]
        simp only [hcase, hcap2, hys]
      have hprovL : jLookup (adapt_base_fields (.obj kvs) (.obj pkvs)
          ++ [("Capas", JVal.arr ys)] ++ adapt_recogida (.obj pkvs))
          "¿Quién proporciona el material?" = some default_material_block := by
        rw [jLookup_append, jLookup_append, jLookup_base_provider, hmat_default]
        rfl
      have hcapL : jLookup (adapt_base_fields (.obj kvs) (.obj pkvs)
          ++ [("Capas", JVal.arr ys)] ++ adapt_recogida (.obj pkvs)) "Capas"
          = some (JVal.arr ys) := by
        rw [jLookup_append, jLookup_append, jLookup_base_capas]
        rfl
      obtain ⟨job, hjob, h1, h2, h3⟩ := build_job_fallback cfg (adapt_cliente (.obj kvs))
        (adapt_base_fields (.obj kvs) (.obj pkvs)
          ++ [("Capas", JVal.arr ys)] ++ adapt_recogida (.obj pkvs))
        hprovL
        (by
          intro v hv
          rw [hcapL] at hv
          obtain rfl : JVal.arr ys = v := by injection hv
          exact ⟨ys, rfl, fun avail area => build_layers_of_adapt_capas xs ys hys avail area⟩)
      refine ⟨_, job, hadapt, ?_, ?_, h1, h2, h3⟩
      · have htop : jGetD (JVal.obj [("Cliente", adapt_cliente (.obj kvs)),
            ("Pedido", .obj (adapt_base_fields (.obj kvs) (.obj pkvs)
              ++ [("Capas", JVal.arr ys)] ++ adapt_recogida (.obj pkvs)))]) "Pedido" .null
            = .obj (adapt_base_fields (.obj kvs) (.obj pkvs)
              ++ [("Capas", JVal.arr ys)] ++ adapt_recogida (.obj pkvs)) := by
          simp +decide [jGetD, jGet, jLookup]
        rw [htop]
        simpa [jGet] using hprovL
      · simp only [normalize_pipeline, hadapt, hjob]
    case neg =>
      have hadapt : adapt_frontend_format (.obj kvs) = Except.ok
          (.obj [("Cliente", adapt_cliente (.obj kvs)),
                 ("Pedido", .obj (adapt_base_fields (.obj kvs) (.obj pkvs)
                   ++ adapt_recogida (.obj pkvs)))]) := by
        unfold adapt_frontend_format
        rw [if_neg hif1, if_neg hif2]
        simp only [hcase]
        cases hcap2 : jGet (JVal.obj pkvs) "capas" with
        | none => rfl
        | some v =>
            cases v with
            | arr xs => exact absurd ⟨xs, hcap2⟩ harr
            | null => rfl
            | bool b => rfl
            | num q => rfl
            | str s => rfl
            | obj o => rfl
      have hprovL : jLookup (adapt_base_fields (.obj kvs) (.obj pkvs)
          ++ adapt_recogida (.obj pkvs)) "¿Quién proporciona el material?"
          = some default_material_block := by
        rw [jLookup_append, jLookup_base_provider, hmat_default]
        rfl
      have hcapL : jLookup (adapt_base_fields (.obj kvs) (.obj pkvs)
          ++ adapt_recogida (.obj pkvs)) "Capas" = none := by
        rw [jLookup_append, jLookup_base_capas, jLookup_recogida_capas]
        rfl
      obtain ⟨job, hjob, h1, h2, h3⟩ := build_job_fallback cfg (adapt_cliente (.obj kvs))
        (adapt_base_fields (.obj kvs) (.obj pkvs) ++ adapt_recogida (.obj pkvs))
        hprovL
        (by intro v hv; rw [hcapL] at hv; exact absurd hv (by simp))
      refine ⟨_, job, hadapt, ?_, ?_, h1, h2, h3⟩
      · have htop : jGetD (JVal.obj [("Cliente", adapt_cliente (.obj kvs)),
            ("Pedido", .obj (adapt_base_fields (.obj kvs) (.obj pkvs)
              ++ adapt_recogida (.obj pkvs)))]) "Pedido" .null
            = .obj (adapt_base_fields (.obj kvs) (.obj pkvs)
              ++ adapt_recogida (.obj pkvs)) := by
          simp +decide [jGetD, jGet, jLookup]
        rw [htop]
        simpa [jGet] using hprovL
      · simp only [normalize_pipeline, hadapt, hjob]

/-- Fields of a concrete new-shape payload (no material information, one
well-formed capa). -/
def c8_new_fields : List (String × JVal) :=
  [("pedido", .obj [("capas", .arr [.obj [("nombre", .str "corte exterior"),
    ("longitud_mm", .num 1000)]])])]

/-- C8 witness: the concrete new-shape payload normalizes to the fallback
material. -/
theorem fallback_material_for_new_shape_witness :
    ∃ adapted job,
      adapt_frontend_format (.obj c8_new_fields) = Except.ok adapted ∧
      jGet (jGetD adapted "Pedido" .null) "¿Quién proporciona el material?"
        = some default_material_block ∧
      normalize_pipeline c3_cfg (.obj c8_new_fields) = Except.ok job ∧
      job.material = "Contrachapado" ∧ job.grosor = 4 ∧ job.color = "light-wood" := by
  apply fallback_material_for_new_shape c3_cfg c8_new_fields rfl (by decide)
  intro pkvs heq
  simp +decide [jGetD, jGet, jLookup, c8_new_fields] at heq
  subst heq
  constructor
  · simp +decide [jGet, jLookup]
  · intro xs hxs
    simp +decide [jGet, jLookup] at hxs
    subst hxs
    exact ⟨_, rfl⟩

end LaserCalc
